import Mathlib

/-!
Verification of the RustDDS RTPS engine core against its natural-language
specification.

We build a shallow embedding of the relevant source functions:
* `src/security/authentication/authentication_builtin/authentication.rs`
  (GUID derivation, handshake state machine, shared-secret access),
* `src/security/config.rs` (configuration URI readers),
* `src/dds/statusevents.rs` (status channel send/receive),
* `src/dds/no_key/simpledatareader.rs` (dispose swallowing),
* `src/messages/submessages/gap.rs` (Gap submessage wire codec).

Bytes are modelled as `Nat` values (with `< 256` well-formedness where it
matters), byte strings as `List Nat`, and machine integers as `Nat` with
explicit modular arithmetic.  The SHA-256 hash and other cryptographic
primitives are external library calls in the source; the embedding takes
them as function parameters / abstract inputs.
-/

namespace RustDDS

/-! ## Byte-level helpers -/

/-- `u64::from_be_bytes`: read a list of 8 bytes as a big-endian `u64`. -/
def u64_from_be_bytes (bs : List Nat) : Nat :=
  bs.foldl (fun acc b => acc * 256 + b) 0

/-- `u64::to_be_bytes`: write a `u64` as its 8 big-endian bytes. -/
def u64_to_be_bytes (n : Nat) : List Nat :=
  [ n / 2^56 % 256, n / 2^48 % 256, n / 2^40 % 256, n / 2^32 % 256,
    n / 2^24 % 256, n / 2^16 % 256, n / 2^8 % 256, n % 256 ]

theorem u64_to_be_bytes_length (n : Nat) : (u64_to_be_bytes n).length = 8 := rfl

/-! ## Security: GUID derivation from certificate
    (authentication.rs, `guid_start_from_certificate`)

The source hashes the certificate subject name DER with SHA-256, reads the
first 8 hash bytes as a big-endian u64, shifts right by one bit, forces the
top bit to one, and keeps the first 6 big-endian bytes of the result.
The SHA-256 function itself is the external `ring` library; the embedding
abstracts it as a function parameter `sha : List Nat → List Nat`. -/

/-- A parsed X.509 certificate, reduced to the field the GUID derivation
reads: the DER encoding of the subject name. -/
structure Certificate where
  subject_name_der : List Nat
deriving Repr, DecidableEq

/-- Embedding of `guid_start_from_certificate` (authentication.rs lines
42-60), parametrized by the hash function `sha` standing for SHA-256. -/
def guid_start_from_certificate (sha : List Nat → List Nat)
    (identity_cert : Certificate) : List Nat :=
  let subject_name_der_hash := sha identity_cert.subject_name_der
  let shifted :=
    (u64_from_be_bytes (subject_name_der_hash.take 8)) / 2 ||| 0x8000000000000000
  (u64_to_be_bytes shifted).take 6

theorem guid_start_length (sha : List Nat → List Nat) (c : Certificate) :
    (guid_start_from_certificate sha c).length = 6 := rfl

/-- Embedding of `validate_remote_guid` (authentication.rs lines 62-80):
`true` = `Ok(())`, `false` = the error return. -/
def validate_remote_guid (sha : List Nat → List Nat)
    (remote_guid_pfx : List Nat) (remote_identity_cert : Certificate) : Bool :=
  decide (remote_guid_pfx.take 6 = guid_start_from_certificate sha remote_identity_cert)

/-! ## Security: handshake state machine
    (authentication_builtin, `BuiltinHandshakeState` and operations)

Key material (challenges, DH keys, shared secrets) is modelled as byte
strings.  DH key pairs, signatures and certificates carried inside the
states are reduced to the parts the verified claims inspect. -/

/-- The handshake state, one variant per protocol phase, carrying the same
per-state payloads as the source enum (key pairs reduced to bytes). -/
inductive BuiltinHandshakeState where
  | PendingRequestSend
  | PendingRequestMessage
  | PendingReplyMessage (challenge1 : List Nat)
  | PendingFinalMessage (challenge1 challenge2 : List Nat)
  | CompletedWithFinalMessageSent (challenge1 challenge2 shared_secret : List Nat)
  | CompletedWithFinalMessageReceived (challenge1 challenge2 shared_secret : List Nat)
deriving Repr, DecidableEq

structure HandshakeInfo where
  state : BuiltinHandshakeState
deriving Repr, DecidableEq

structure RemoteParticipantInfo where
  identity_certificate_opt : Option Certificate
  signed_permissions_xml_opt : Option (List Nat)
  handshake : HandshakeInfo
deriving Repr, DecidableEq

structure LocalParticipantInfo where
  identity_handle : Nat
  guid_pfx : List Nat
deriving Repr, DecidableEq

/-- The authentication plugin state: the local participant record, the
remote-participant table (association list, newest first, fresh keys), and
the identity-handle counter. -/
structure AuthenticationBuiltin where
  local_participant_info : Option LocalParticipantInfo
  remote_participant_infos : List (Nat × RemoteParticipantInfo)
  identity_handle_counter : Nat
deriving Repr, DecidableEq

/-- `get_new_identity_handle`: hand out the next fresh identity handle. -/
def get_new_identity_handle (s : AuthenticationBuiltin) :
    Nat × AuthenticationBuiltin :=
  (s.identity_handle_counter,
   { s with identity_handle_counter := s.identity_handle_counter + 1 })

/-- Table lookup in `remote_participant_infos` (the source uses a HashMap;
fresh counter keys are never duplicated, so first-match lookup agrees). -/
def lookupInfo : List (Nat × RemoteParticipantInfo) → Nat →
    Option RemoteParticipantInfo
  | [], _ => none
  | (k, v) :: rest, h => if k = h then some v else lookupInfo rest h

/-- Replace the handshake state stored under a handle. -/
def setState : List (Nat × RemoteParticipantInfo) → Nat →
    BuiltinHandshakeState → List (Nat × RemoteParticipantInfo)
  | [], _, _ => []
  | (k, v) :: rest, h, st =>
    if k = h then (k, { v with handshake := ⟨st⟩ }) :: rest
    else (k, v) :: setState rest h st

inductive ValidationOutcome where
  | Ok
  | PendingHandshakeRequest
  | PendingHandshakeMessage
deriving Repr, DecidableEq

/-- Embedding of `validate_local_identity` (authentication.rs lines 83-259).
The configuration loading and certificate-chain checks are external
(filesystem and `ring`); `config_ok` abstracts their combined success.
`sha` stands for SHA-256, `r1 r2 r3` for the three
`generate_random_32_bytes` results.  Returns the new plugin state, the new
local identity handle and the adjusted GUID as (prefix bytes, entity id). -/
def validate_local_identity (s : AuthenticationBuiltin)
    (sha : List Nat → List Nat) (config_ok : Bool)
    (identity_certificate : Certificate)
    (candidate_guid_pfx candidate_entity_id : List Nat)
    (r1 r2 r3 : List Nat) :
    Option (AuthenticationBuiltin × Nat × (List Nat × List Nat)) :=
  if ¬config_ok then none
  else
    let guid_start := guid_start_from_certificate sha identity_certificate
    -- candidate_participant_guid.to_bytes() = prefix bytes ++ entity id bytes
    let candidate_guid_hash := sha (candidate_guid_pfx ++ candidate_entity_id)
    let prefix_bytes := guid_start ++ candidate_guid_hash.take 6
    let (local_identity_handle, s1) := get_new_identity_handle s
    let local_info : LocalParticipantInfo :=
      { identity_handle := local_identity_handle, guid_pfx := prefix_bytes }
    let self_remote_info : RemoteParticipantInfo :=
      { identity_certificate_opt := none,
        signed_permissions_xml_opt := none,
        handshake := ⟨.CompletedWithFinalMessageReceived r1 r2 r3⟩ }
    some ({ s1 with
            local_participant_info := some local_info,
            remote_participant_infos :=
              (local_identity_handle, self_remote_info) ::
                s1.remote_participant_infos },
          local_identity_handle, (prefix_bytes, candidate_entity_id))

/-- Lexicographic comparison of byte strings: the embedding of the derived
`Ord` on `GuidPrefix` (element-wise on the 12 prefix bytes). -/
def compareBytes : List Nat → List Nat → Ordering
  | [], [] => .eq
  | [], _ :: _ => .lt
  | _ :: _, [] => .gt
  | a :: as_, b :: bs =>
    if a < b then .lt else if b < a then .gt else compareBytes as_ bs

theorem compareBytes_self (l : List Nat) : compareBytes l l = .eq := by
  induction l with
  | nil => rfl
  | cons a as_ ih => simp [compareBytes, ih]

/-- Embedding of `validate_remote_identity` (authentication.rs lines
314-396).  `class_id_ok` abstracts the remote identity-token class-id
check.  On success returns the new plugin state, the outcome and the new
remote identity handle. -/
def validate_remote_identity (s : AuthenticationBuiltin)
    (class_id_ok : Bool) (local_identity_handle : Nat)
    (remote_participant_guidp : List Nat) :
    Option (AuthenticationBuiltin × ValidationOutcome × Nat) :=
  match s.local_participant_info with
  | none => none
  | some local_info =>
    if local_identity_handle ≠ local_info.identity_handle then none
    else if ¬class_id_ok then none
    else
      match compareBytes local_info.guid_pfx remote_participant_guidp with
      | .lt =>
        let (remote_identity_handle, s1) := get_new_identity_handle s
        some ({ s1 with remote_participant_infos :=
                  (remote_identity_handle,
                   ⟨none, none, ⟨.PendingRequestSend⟩⟩) ::
                    s1.remote_participant_infos },
              .PendingHandshakeRequest, remote_identity_handle)
      | .gt =>
        let (remote_identity_handle, s1) := get_new_identity_handle s
        some ({ s1 with remote_participant_infos :=
                  (remote_identity_handle,
                   ⟨none, none, ⟨.PendingRequestMessage⟩⟩) ::
                    s1.remote_participant_infos },
              .PendingHandshakeMessage, remote_identity_handle)
      | .eq => none

/-- The handshake state stored for a given remote handle, if any. -/
def stateOf (s : AuthenticationBuiltin) (h : Nat) :
    Option BuiltinHandshakeState :=
  (lookupInfo s.remote_participant_infos h).map (fun i => i.handshake.state)

/-- Embedding of `begin_handshake_reply` (authentication.rs lines 501-691).
The fallible external steps are abstracted as flags, in source order:
`parse_ok` (request token extraction), `cert_sig_ok` (Cert1 verifies
against the identity CA), `pdata_ok` (SPDP participant-data
deserialization), then the GUID check, `kagree_known` (key-agreement
algorithm recognized), `hash_c1_ok` (received hash(C1) comparison) and
`sign_ok` (signing with the local private key).  `remote_cert` is the
certificate parsed from the request, `remote_guid_pfx` the GUID prefix in
the deserialized participant data. -/
def begin_handshake_reply (s : AuthenticationBuiltin)
    (sha : List Nat → List Nat)
    (initiator_identity_handle replier_identity_handle : Nat)
    (parse_ok cert_sig_ok pdata_ok : Bool)
    (remote_cert : Certificate) (remote_guid_pfx : List Nat)
    (kagree_known hash_c1_ok sign_ok : Bool)
    (challenge1 challenge2 : List Nat) :
    Option (AuthenticationBuiltin × ValidationOutcome) :=
  match s.local_participant_info with
  | none => none
  | some local_info =>
    if replier_identity_handle ≠ local_info.identity_handle then none
    else
      match lookupInfo s.remote_participant_infos initiator_identity_handle with
      | none => none
      | some remote_info =>
        match remote_info.handshake.state with
        | .PendingRequestMessage =>
          if ¬parse_ok then none
          else if ¬cert_sig_ok then none
          else if ¬pdata_ok then none
          else if ¬validate_remote_guid sha remote_guid_pfx remote_cert then none
          else if ¬kagree_known then none
          else if ¬hash_c1_ok then none
          else if ¬sign_ok then none
          else
            let newInfos :=
              setState s.remote_participant_infos initiator_identity_handle
                (.PendingFinalMessage challenge1 challenge2)
            some ({ s with remote_participant_infos := newInfos },
                  .PendingHandshakeMessage)
        | _ => none

/-- The result of `get_shared_secret`. -/
structure SharedSecretHandle where
  challenge1 : List Nat
  challenge2 : List Nat
  shared_secret : List Nat
deriving Repr, DecidableEq

/-- Embedding of `get_shared_secret` (authentication.rs lines 1032-1061). -/
def get_shared_secret (s : AuthenticationBuiltin)
    (remote_identity_handle : Nat) : Option SharedSecretHandle :=
  match lookupInfo s.remote_participant_infos remote_identity_handle with
  | none => none
  | some remote_info =>
    match remote_info.handshake.state with
    | .CompletedWithFinalMessageSent c1 c2 ss => some ⟨c1, c2, ss⟩
    | .CompletedWithFinalMessageReceived c1 c2 ss => some ⟨c1, c2, ss⟩
    | _ => none

/-! ## Security configuration URI readers (config.rs) -/

/-- The error type of the configuration readers (config.rs lines 250-257);
message texts abbreviated. -/
inductive ConfigError where
  | Parse (msg : String)
  | Pkcs7 (msg : String)
  | Pkcs11 (msg : String)
  | Security (msg : String)
  | Other (msg : String)
deriving Repr, DecidableEq

/-- What `read_uri` does on success: either return inline bytes or read a
file from the filesystem (the actual I/O is external, so the embedding
returns the action symbolically). -/
inductive UriAction where
  | inlineData (content : List Char)
  | readFile (path : List Char)
deriving Repr, DecidableEq

/-- What `read_uri_to_private_key` does on success. -/
inductive KeyAction where
  | pemKeyData (content : List Char)
  | pkcs11Key (path_and_query : List Char)
  | pemKeyFile (path : List Char)
deriving Repr, DecidableEq

/-- `str::split_once`: split at the first occurrence of the separator. -/
def splitOnce : List Char → Char → Option (List Char × List Char)
  | [], _ => none
  | c :: rest, sep =>
    if c = sep then some ([], rest)
    else
      match splitOnce rest sep with
      | some (a, b) => some (c :: a, b)
      | none => none

/-- Embedding of `read_uri` (config.rs lines 210-223). -/
def read_uri (uri : List Char) : Except ConfigError UriAction :=
  match splitOnce uri ':' with
  | some (scheme, content) =>
    if scheme = "data".toList then .ok (.inlineData content)
    else if scheme = "pkcs11".toList then
      .error (.Other "Config URI schema pkcs11: not implemented.")
    else if scheme = "file".toList then .ok (.readFile content)
    else .error (.Parse "Config URI must begin with file: , data:, or pkcs11:.")
  | none => .error (.Parse "Config URI must begin with file: , data:, or pkcs11:.")

/-- Embedding of `read_uri_to_private_key` (config.rs lines 227-246); the
fallible PEM / PKCS#11 key constructors are external, so the scheme
dispatch result is returned symbolically. -/
def read_uri_to_private_key (uri : List Char) :
    Except ConfigError KeyAction :=
  match splitOnce uri ':' with
  | some (scheme, content) =>
    if scheme = "data".toList then .ok (.pemKeyData content)
    else if scheme = "pkcs11".toList then .ok (.pkcs11Key content)
    else if scheme = "file".toList then .ok (.pemKeyFile content)
    else .error (.Parse "Config URI must begin with file: , data:, or pkcs11:.")
  | none => .error (.Parse "Config URI must begin with file: , data:, or pkcs11:.")

/-! ## Status channel (statusevents.rs)

`StatusChannelSender::try_send` / `StatusReceiverStream::poll_next` over a
bounded mio sync channel with a stored waker and a poll-signal source.
Wakers are modelled by identifiers; a "wake" is reported in the step
result.  `signals` counts `signal_sender.send()` calls. -/

/-- The state shared between a `StatusChannelSender` and its
`StatusChannelReceiver`: the bounded queue, its capacity, liveness of the
two endpoints, the stored consumer waker and the poll-signal counter. -/
structure ChannelState (T : Type) where
  queue : List T
  capacity : Nat
  sender_alive : Bool
  receiver_alive : Bool
  waker : Option Nat
  signals : Nat
deriving Repr, DecidableEq

/-- Result of `mio_channel::SyncSender::try_send`. -/
inductive MioSendStatus where
  | ok
  | full
  | disconnected
deriving Repr, DecidableEq

/-- `mio_channel::SyncSender::try_send`: fails with `Disconnected` when the
receiver is gone, with `Full` when the bounded queue is at capacity. -/
def mio_try_send {T : Type} (s : ChannelState T) : MioSendStatus :=
  if ¬s.receiver_alive then .disconnected
  else if s.capacity ≤ s.queue.length then .full
  else .ok

/-- One step of `StatusChannelSender::try_send` (statusevents.rs lines
94-118).  Returns the new channel state, the waker woken by this call (if
one was stored), and the result: `true` = `Ok(())`, `false` = `Err`. -/
def try_send {T : Type} (s : ChannelState T) (t : T) :
    ChannelState T × Option Nat × Bool :=
  match mio_try_send s with
  | .ok =>
    ({ s with queue := s.queue ++ [t], signals := s.signals + 1,
              waker := none },
     s.waker, true)
  | .full =>
    -- the payload t is dropped; the receiver is still signalled and woken
    ({ s with signals := s.signals + 1, waker := none }, s.waker, true)
  | .disconnected => (s, none, false)

/-- Result of `std::sync::mpsc` style `try_recv`. -/
inductive TryRecvResult (T : Type) where
  | ok (t : T)
  | empty
  | disconnected
deriving Repr, DecidableEq

/-- `StatusChannelReceiver::try_recv` (statusevents.rs lines 122-127):
drain the poll signal, then `mio_channel::Receiver::try_recv`, which
reports `Disconnected` only when the queue is empty and the sender side is
dropped. -/
def try_recv {T : Type} (s : ChannelState T) :
    ChannelState T × TryRecvResult T :=
  let s0 := { s with signals := 0 }   -- signal_receiver.drain()
  match s0.queue with
  | t :: rest => ({ s0 with queue := rest }, .ok t)
  | [] =>
    if s0.sender_alive then (s0, .empty) else (s0, .disconnected)

/-- `Poll<Option<T>>` as returned by `Stream::poll_next`. -/
inductive PollNext (T : Type) where
  | readySome (t : T)
  | readyNone
  | pending
deriving Repr, DecidableEq

/-- One step of `StatusReceiverStream::poll_next` (statusevents.rs lines
225-243).  `caller_waker` is the task waker from the poll context,
`terminated` the stream flag before the call.  Returns the new channel
state, the new terminated flag and the poll result. -/
def poll_next {T : Type} (s : ChannelState T) (terminated : Bool)
    (caller_waker : Nat) : ChannelState T × Bool × PollNext T :=
  match try_recv s with
  | (s1, .empty) => ({ s1 with waker := some caller_waker }, terminated, .pending)
  | (s1, .disconnected) => (s1, true, .readyNone)
  | (s1, .ok t) => (s1, terminated, .readySome t)

/-! ## no_key SimpleDataReader (dds/no_key/simpledatareader.rs) -/

/-- A sample from the keyed reader: either a value or a dispose carrying
only the instance key (with_key `Sample<D, K>`). -/
inductive Sample (D K : Type) where
  | value (d : D)
  | dispose (k : K)
deriving Repr, DecidableEq

/-- A with_key deserialized cache change, reduced to the sample payload
that `from_keyed` inspects. -/
structure KeyedDeserializedCacheChange (D K : Type) where
  sample : Sample D K
deriving Repr, DecidableEq

/-- A no_key deserialized cache change: always carries a value. -/
structure DeserializedCacheChange (D : Type) where
  data : D
deriving Repr, DecidableEq

/-- Modelled from the spec: `no_key::DeserializedCacheChange::from_keyed`
(in `dds/no_key/datasample.rs`, not under src/).  Per the no_key reader
sources, a keyed change converts to a no_key change exactly when it is a
value sample; a dispose sample (which has no data) yields `None` — see
the dispose-skipping match arms in `simpledatareader.rs` lines 109-124 and
`no_key/datareader.rs` lines 644-724. -/
def DeserializedCacheChange.from_keyed {D K : Type}
    (kdcc : KeyedDeserializedCacheChange D K) :
    Option (DeserializedCacheChange D) :=
  match kdcc.sample with
  | .value d => some ⟨d⟩
  | .dispose _ => none

/-- Read errors, abstract (the claims only propagate them). -/
structure ReadError where
  code : Nat
deriving Repr, DecidableEq

/-- Embedding of `SimpleDataReader::try_take_one_with` (no_key,
simpledatareader.rs lines 63-78), as a function of the result returned by
the underlying keyed reader. -/
def try_take_one_with {D K : Type}
    (keyed_result : Except ReadError (Option (KeyedDeserializedCacheChange D K))) :
    Except ReadError (Option (DeserializedCacheChange D)) :=
  match keyed_result with
  | .error e => .error e
  | .ok none => .ok none
  | .ok (some kdcc) =>
    match DeserializedCacheChange.from_keyed kdcc with
    | some dcc => .ok (some dcc)
    | none => .ok none

/-! ## Gap submessage wire codec (messages/submessages/gap.rs)

The `Gap` struct derives speedy `Readable`/`Writable`; its field codecs
live in `structure/guid.rs` and `structure/sequence_number.rs`, which are
not under src/.  Those field layouts are modelled from the spec (wire
codec, §4.1 and §3) and pinned by the byte-level test vectors in
gap.rs lines 83-106: an `EntityId` is 4 raw bytes (endianness
independent), a `SequenceNumber` is a signed 64-bit value written as
high 32 bits then low 32 bits, each in the submessage endianness, and a
`SequenceNumberSet` is a base sequence number, a 32-bit bit count
(at most 256) and `ceil(numBits/32)` 32-bit bitmap words.  Signed 64-bit
values are represented by their bit patterns (`Nat < 2^64`). -/

inductive Endian where
  | little
  | big
deriving Repr, DecidableEq

/-- Encode a `u32` as 4 bytes in the given endianness. -/
def encU32 (e : Endian) (n : Nat) : List Nat :=
  match e with
  | .little => [n % 256, n / 2^8 % 256, n / 2^16 % 256, n / 2^24 % 256]
  | .big => [n / 2^24 % 256, n / 2^16 % 256, n / 2^8 % 256, n % 256]

/-- Decode a `u32` from the first 4 bytes of the buffer. -/
def decU32 (e : Endian) (bs : List Nat) : Option (Nat × List Nat) :=
  match bs with
  | b0 :: b1 :: b2 :: b3 :: rest =>
    match e with
    | .little => some (b0 + 2^8 * b1 + 2^16 * b2 + 2^24 * b3, rest)
    | .big => some (b3 + 2^8 * b2 + 2^16 * b1 + 2^24 * b0, rest)
  | _ => none

/-- An RTPS entity id: a 3-byte entity key and a 1-byte entity kind. -/
structure EntityId where
  entity_key : List Nat
  entity_kind : Nat
deriving Repr, DecidableEq

def EntityId.wf (eid : EntityId) : Prop :=
  eid.entity_key.length = 3 ∧ (∀ b ∈ eid.entity_key, b < 256) ∧
    eid.entity_kind < 256

/-- `EntityId` on the wire: its 4 bytes, in both endiannesses. -/
def encEntityId (eid : EntityId) : List Nat :=
  eid.entity_key ++ [eid.entity_kind]

def decEntityId (bs : List Nat) : Option (EntityId × List Nat) :=
  match bs with
  | b0 :: b1 :: b2 :: b3 :: rest => some (⟨[b0, b1, b2], b3⟩, rest)
  | _ => none

/-- A `SequenceNumber` (64-bit) on the wire: high 32 bits, then low 32
bits, each in the submessage endianness.  `sn < 2^64` is the bit
pattern of the i64. -/
def encSN (e : Endian) (sn : Nat) : List Nat :=
  encU32 e (sn / 2^32) ++ encU32 e (sn % 2^32)

def decSN (e : Endian) (bs : List Nat) : Option (Nat × List Nat) :=
  match decU32 e bs with
  | none => none
  | some (hi, rest) =>
    match decU32 e rest with
    | none => none
    | some (lo, rest2) => some (hi * 2^32 + lo, rest2)

/-- A `SequenceNumberSet`: base sequence number, bit count and bitmap
words. -/
structure SequenceNumberSet where
  base : Nat
  numBits : Nat
  words : List Nat
deriving Repr, DecidableEq

/-- Spec invariants: bitmap of at most 256 entries, `ceil(numBits/32)`
32-bit words. -/
def SequenceNumberSet.wf (s : SequenceNumberSet) : Prop :=
  s.base < 2^64 ∧ s.numBits ≤ 256 ∧
    s.words.length = (s.numBits + 31) / 32 ∧ ∀ w ∈ s.words, w < 2^32

/-- Concatenation of the encodings of the bitmap words. -/
def encWords (e : Endian) : List Nat → List Nat
  | [] => []
  | w :: ws => encU32 e w ++ encWords e ws

def encSNSet (e : Endian) (s : SequenceNumberSet) : List Nat :=
  encSN e s.base ++ encU32 e s.numBits ++ encWords e s.words

/-- Read `k` 32-bit words. -/
def decWords (e : Endian) : Nat → List Nat → Option (List Nat × List Nat)
  | 0, bs => some ([], bs)
  | k + 1, bs =>
    match decU32 e bs with
    | none => none
    | some (w, rest) =>
      match decWords e k rest with
      | none => none
      | some (ws, rest2) => some (w :: ws, rest2)

def decSNSet (e : Endian) (bs : List Nat) :
    Option (SequenceNumberSet × List Nat) :=
  match decSN e bs with
  | none => none
  | some (base, rest) =>
    match decU32 e rest with
    | none => none
    | some (numBits, rest2) =>
      if numBits ≤ 256 then
        match decWords e ((numBits + 31) / 32) rest2 with
        | none => none
        | some (ws, rest3) => some (⟨base, numBits, ws⟩, rest3)
      else none

/-- The Gap submessage value (gap.rs lines 22-46). -/
structure Gap where
  reader_id : EntityId
  writer_id : EntityId
  gap_start : Nat
  gap_list : SequenceNumberSet
deriving Repr, DecidableEq

def Gap.wf (g : Gap) : Prop :=
  g.reader_id.wf ∧ g.writer_id.wf ∧ g.gap_start < 2^64 ∧ g.gap_list.wf

/-- Encode the Gap submessage body in the given endianness (the derived
speedy `Writable`: the four fields in declaration order). -/
def encGap (e : Endian) (g : Gap) : List Nat :=
  encEntityId g.reader_id ++ encEntityId g.writer_id ++
    encSN e g.gap_start ++ encSNSet e g.gap_list

/-- Decode a Gap submessage body (the derived speedy `Readable`); the
whole buffer must be consumed. -/
def decGap (e : Endian) (bs : List Nat) : Option Gap :=
  match decEntityId bs with
  | none => none
  | some (rid, rest) =>
    match decEntityId rest with
    | none => none
    | some (wid, rest2) =>
      match decSN e rest2 with
      | none => none
      | some (gs, rest3) =>
        match decSNSet e rest3 with
        | none => none
        | some (gl, rest4) =>
          match rest4 with
          | [] => some ⟨rid, wid, gs, gl⟩
          | _ => none

/-! ## Theorems -/

/-- C1: for every identity certificate accepted by
`validate_local_identity`, the first 6 bytes of the adjusted participant
GUID prefix equal the big-endian bytes of ((the first 8 bytes of SHA-256
of the subject-DN DER, read as a big-endian u64) shifted right by 1 bit,
OR-ed with 0x8000_0000_0000_0000), truncated to 6 bytes. -/
theorem C1_adjusted_guid_upper_bytes
    (s : AuthenticationBuiltin) (sha : List Nat → List Nat) (config_ok : Bool)
    (cert : Certificate) (cpfx ceid r1 r2 r3 : List Nat)
    (s' : AuthenticationBuiltin) (h : Nat) (pfx eid : List Nat)
    (hacc : validate_local_identity s sha config_ok cert cpfx ceid r1 r2 r3 =
      some (s', h, (pfx, eid))) :
    pfx.take 6 =
      (u64_to_be_bytes
        (u64_from_be_bytes ((sha cert.subject_name_der).take 8) / 2 |||
          0x8000000000000000)).take 6 := by
  cases config_ok with
  | false => simp [validate_local_identity] at hacc
  | true =>
    simp only [validate_local_identity, get_new_identity_handle,
      Bool.not_true, Bool.false_eq_true, if_false, Option.some.injEq,
      Prod.mk.injEq] at hacc
    obtain ⟨rfl, rfl, rfl, rfl⟩ := hacc
    exact List.take_left' rfl

/-- C1 witness: a concrete accepted validation, with the derived bytes
computed explicitly. -/
theorem C1_witness :
    ([128, 0, 129, 1, 130, 2, 0, 1, 2, 3, 4, 5] : List Nat).take 6 =
      (u64_to_be_bytes
        (u64_from_be_bytes (((fun _ => List.range 32) ([1] : List Nat)).take 8) / 2 |||
          0x8000000000000000)).take 6 :=
  C1_adjusted_guid_upper_bytes
    ⟨none, [], 7⟩ (fun _ => List.range 32) true ⟨[1]⟩ [2] [3] [4] [5] [6]
    ⟨some ⟨7, [128, 0, 129, 1, 130, 2, 0, 1, 2, 3, 4, 5]⟩,
      [(7, ⟨none, none, ⟨.CompletedWithFinalMessageReceived [4] [5] [6]⟩⟩)], 8⟩
    7 [128, 0, 129, 1, 130, 2, 0, 1, 2, 3, 4, 5] [3]
    (by decide)

/-- C9: after every successful `validate_local_identity`, the
remote-participant table holds, under the new local identity handle, a
self-entry in state `CompletedWithFinalMessageReceived` carrying the three
freshly generated random values, so `get_shared_secret` on the local
handle succeeds with exactly those values. -/
theorem C9_self_authentication
    (s : AuthenticationBuiltin) (sha : List Nat → List Nat) (config_ok : Bool)
    (cert : Certificate) (cpfx ceid r1 r2 r3 : List Nat)
    (s' : AuthenticationBuiltin) (h : Nat) (g : List Nat × List Nat)
    (hacc : validate_local_identity s sha config_ok cert cpfx ceid r1 r2 r3 =
      some (s', h, g)) :
    stateOf s' h = some (.CompletedWithFinalMessageReceived r1 r2 r3) ∧
      get_shared_secret s' h = some ⟨r1, r2, r3⟩ := by
  cases config_ok with
  | false => simp [validate_local_identity] at hacc
  | true =>
    simp only [validate_local_identity, get_new_identity_handle,
      Bool.not_true, Bool.false_eq_true, if_false, Option.some.injEq,
      Prod.mk.injEq] at hacc
    obtain ⟨rfl, rfl, rfl⟩ := hacc
    constructor
    · simp [stateOf, lookupInfo]
    · simp [get_shared_secret, lookupInfo]

/-- C9 witness: running the concrete validation from the C1 witness and
reading the self-entry and shared secret back. -/
theorem C9_witness :
    stateOf
      ⟨some ⟨7, [128, 0, 129, 1, 130, 2, 0, 1, 2, 3, 4, 5]⟩,
        [(7, ⟨none, none, ⟨.CompletedWithFinalMessageReceived [4] [5] [6]⟩⟩)], 8⟩
      7 = some (.CompletedWithFinalMessageReceived [4] [5] [6]) ∧
    get_shared_secret
      ⟨some ⟨7, [128, 0, 129, 1, 130, 2, 0, 1, 2, 3, 4, 5]⟩,
        [(7, ⟨none, none, ⟨.CompletedWithFinalMessageReceived [4] [5] [6]⟩⟩)], 8⟩
      7 = some ⟨[4], [5], [6]⟩ :=
  C9_self_authentication
    ⟨none, [], 7⟩ (fun _ => List.range 32) true ⟨[1]⟩ [2] [3] [4] [5] [6]
    ⟨some ⟨7, [128, 0, 129, 1, 130, 2, 0, 1, 2, 3, 4, 5]⟩,
      [(7, ⟨none, none, ⟨.CompletedWithFinalMessageReceived [4] [5] [6]⟩⟩)], 8⟩
    7 ([128, 0, 129, 1, 130, 2, 0, 1, 2, 3, 4, 5], [3])
    (by decide)

/-- C4: `get_shared_secret` returns a `SharedSecretHandle` carrying exactly
the challenge1, challenge2 and shared secret stored in the handshake state
if and only if the remote handshake state is
`CompletedWithFinalMessageSent` or `CompletedWithFinalMessageReceived`; in
every other state (or for an unknown handle) it returns an error. -/
theorem C4_shared_secret_iff_completed
    (s : AuthenticationBuiltin) (h : Nat) (ssh : SharedSecretHandle) :
    get_shared_secret s h = some ssh ↔
      ∃ info, lookupInfo s.remote_participant_infos h = some info ∧
        (info.handshake.state =
            .CompletedWithFinalMessageSent ssh.challenge1 ssh.challenge2
              ssh.shared_secret ∨
         info.handshake.state =
            .CompletedWithFinalMessageReceived ssh.challenge1 ssh.challenge2
              ssh.shared_secret) := by
  unfold get_shared_secret
  cases hl : lookupInfo s.remote_participant_infos h with
  | none => simp
  | some info =>
    cases hst : info.handshake.state <;>
      simp [hst] <;> obtain ⟨c1, c2, ss⟩ := ssh <;>
        simp [SharedSecretHandle.mk.injEq]

/-- C2: `validate_remote_identity` makes the participant with the
lexicographically smaller GUID prefix the handshake initiator: a smaller
local prefix yields state `PendingRequestSend` and outcome
`PendingHandshakeRequest`, a larger one yields `PendingRequestMessage`
and `PendingHandshakeMessage`, and equal prefixes are an error. -/
theorem C2_initiator_by_guid_order
    (s : AuthenticationBuiltin) (local_info : LocalParticipantInfo)
    (class_id_ok : Bool) (lh : Nat) (rp : List Nat)
    (hli : s.local_participant_info = some local_info)
    (hlh : lh = local_info.identity_handle)
    (hcid : class_id_ok = true) :
    (compareBytes local_info.guid_pfx rp = .lt →
      validate_remote_identity s class_id_ok lh rp =
        some ({ s with
                identity_handle_counter := s.identity_handle_counter + 1,
                remote_participant_infos :=
                  (s.identity_handle_counter,
                    ⟨none, none, ⟨.PendingRequestSend⟩⟩) ::
                    s.remote_participant_infos },
              .PendingHandshakeRequest, s.identity_handle_counter)) ∧
    (compareBytes local_info.guid_pfx rp = .gt →
      validate_remote_identity s class_id_ok lh rp =
        some ({ s with
                identity_handle_counter := s.identity_handle_counter + 1,
                remote_participant_infos :=
                  (s.identity_handle_counter,
                    ⟨none, none, ⟨.PendingRequestMessage⟩⟩) ::
                    s.remote_participant_infos },
              .PendingHandshakeMessage, s.identity_handle_counter)) ∧
    (local_info.guid_pfx = rp →
      validate_remote_identity s class_id_ok lh rp = none) := by
  subst hlh hcid
  refine ⟨fun hcmp => ?_, fun hcmp => ?_, fun heq => ?_⟩
  · simp [validate_remote_identity, hli, hcmp, get_new_identity_handle]
  · simp [validate_remote_identity, hli, hcmp, get_new_identity_handle]
  · subst heq
    simp [validate_remote_identity, hli, compareBytes_self]

/-- C2 witness: concrete runs of all three branches (local prefix smaller,
larger, equal). -/
theorem C2_witness :
    (validate_remote_identity ⟨some ⟨0, [1, 2]⟩, [], 3⟩ true 0 [1, 9] =
      some (⟨some ⟨0, [1, 2]⟩,
             [(3, ⟨none, none, ⟨.PendingRequestSend⟩⟩)], 4⟩,
            .PendingHandshakeRequest, 3)) ∧
    (validate_remote_identity ⟨some ⟨0, [1, 2]⟩, [], 3⟩ true 0 [1, 0] =
      some (⟨some ⟨0, [1, 2]⟩,
             [(3, ⟨none, none, ⟨.PendingRequestMessage⟩⟩)], 4⟩,
            .PendingHandshakeMessage, 3)) ∧
    (validate_remote_identity ⟨some ⟨0, [1, 2]⟩, [], 3⟩ true 0 [1, 2] = none) :=
  ⟨(C2_initiator_by_guid_order ⟨some ⟨0, [1, 2]⟩, [], 3⟩ ⟨0, [1, 2]⟩
      true 0 [1, 9] rfl rfl rfl).1 (by decide),
   (C2_initiator_by_guid_order ⟨some ⟨0, [1, 2]⟩, [], 3⟩ ⟨0, [1, 2]⟩
      true 0 [1, 0] rfl rfl rfl).2.1 (by decide),
   (C2_initiator_by_guid_order ⟨some ⟨0, [1, 2]⟩, [], 3⟩ ⟨0, [1, 2]⟩
      true 0 [1, 2] rfl rfl rfl).2.2 rfl⟩

/-- C3: `validate_remote_guid` accepts exactly when the first 6 bytes of
the remote GUID prefix equal the bytes derived from the certificate
subject-DN hash, and `begin_handshake_reply` fails (produces no reply
token) whenever that check fails. -/
theorem C3_remote_guid_check
    (sha : List Nat → List Nat) (p : List Nat) (cert : Certificate) :
    (validate_remote_guid sha p cert = true ↔
      p.take 6 = guid_start_from_certificate sha cert) ∧
    (∀ (s : AuthenticationBuiltin) (ih rh : Nat)
      (parse_ok cert_sig_ok pdata_ok kagree_known hash_c1_ok sign_ok : Bool)
      (c1 c2 : List Nat),
      validate_remote_guid sha p cert = false →
      begin_handshake_reply s sha ih rh parse_ok cert_sig_ok pdata_ok cert p
        kagree_known hash_c1_ok sign_ok c1 c2 = none) := by
  constructor
  · simp [validate_remote_guid]
  · intro s ih rh parse_ok cert_sig_ok pdata_ok kagree_known hash_c1_ok
      sign_ok c1 c2 hv
    cases hli : s.local_participant_info with
    | none => simp [begin_handshake_reply, hli]
    | some li =>
      simp only [begin_handshake_reply, hli]
      split
      · rfl
      · cases hlk : lookupInfo s.remote_participant_infos ih with
        | none => rfl
        | some info =>
          cases hst : info.handshake.state <;>
            cases parse_ok <;> cases cert_sig_ok <;> cases pdata_ok <;>
              simp [hst, hv]

/-- C3 witness: a mismatching GUID prefix is rejected and makes
`begin_handshake_reply` fail at a concrete state. -/
theorem C3_witness :
    validate_remote_guid (fun _ => List.range 32) [9, 9, 9, 9, 9, 9]
      ⟨[1]⟩ = false ∧
    begin_handshake_reply
      ⟨some ⟨0, [1, 2]⟩, [(3, ⟨none, none, ⟨.PendingRequestMessage⟩⟩)], 4⟩
      (fun _ => List.range 32) 3 0 true true true ⟨[1]⟩ [9, 9, 9, 9, 9, 9]
      true true true [7] [8] = none :=
  ⟨by decide,
   (C3_remote_guid_check (fun _ => List.range 32) [9, 9, 9, 9, 9, 9]
      ⟨[1]⟩).2
     ⟨some ⟨0, [1, 2]⟩, [(3, ⟨none, none, ⟨.PendingRequestMessage⟩⟩)], 4⟩
     3 0 true true true true true true [7] [8] (by decide)⟩

theorem splitOnce_of_not_mem (uri : List Char) (sep : Char)
    (h : sep ∉ uri) : splitOnce uri sep = none := by
  induction uri with
  | nil => rfl
  | cons c rest ih =>
    simp only [List.mem_cons, not_or] at h
    simp [splitOnce, Ne.symm h.1, ih h.2]

theorem splitOnce_append (scheme rest : List Char) (sep : Char)
    (h : sep ∉ scheme) :
    splitOnce (scheme ++ sep :: rest) sep = some (scheme, rest) := by
  induction scheme with
  | nil => simp [splitOnce]
  | cons c cs ih =>
    simp only [List.mem_cons, not_or] at h
    simp [splitOnce, Ne.symm h.1, ih h.2]

/-- C7 counterexample: `read_uri` does NOT succeed on a well-formed
pkcs11 URI; it returns the not-implemented error. -/
theorem C7_counterexample :
    read_uri (['p', 'k', 'c', 's', '1', '1', ':', 'o', 'b', 'j'] : List Char) =
      .error (.Other "Config URI schema pkcs11: not implemented.") := by
  rfl

/-- C7 (amended): both security config readers recognize exactly the
schemes `file:`, `data:` and `pkcs11:`, and both return a parse error for
any other scheme or a scheme-less URI; `read_uri` rejects its `pkcs11:`
branch as not implemented, while `read_uri_to_private_key` accepts all
three schemes, including a well-formed `pkcs11:` URI. -/
theorem C7_uri_schemes (rest : List Char) (scheme : List Char)
    (uri : List Char) :
    (read_uri (['d', 'a', 't', 'a', ':'] ++ rest) = .ok (.inlineData rest)) ∧
    (read_uri (['f', 'i', 'l', 'e', ':'] ++ rest) = .ok (.readFile rest)) ∧
    (read_uri (['p', 'k', 'c', 's', '1', '1', ':'] ++ rest) =
      .error (.Other "Config URI schema pkcs11: not implemented.")) ∧
    ((':' : Char) ∉ scheme → scheme ≠ ['d', 'a', 't', 'a'] →
      scheme ≠ ['f', 'i', 'l', 'e'] → scheme ≠ ['p', 'k', 'c', 's', '1', '1'] →
      read_uri (scheme ++ ':' :: rest) =
        .error (.Parse "Config URI must begin with file: , data:, or pkcs11:.")) ∧
    ((':' : Char) ∉ uri →
      read_uri uri =
        .error (.Parse "Config URI must begin with file: , data:, or pkcs11:.")) ∧
    (read_uri_to_private_key (['p', 'k', 'c', 's', '1', '1', ':'] ++ rest) =
      .ok (.pkcs11Key rest)) ∧
    (read_uri_to_private_key (['d', 'a', 't', 'a', ':'] ++ rest) =
      .ok (.pemKeyData rest)) ∧
    (read_uri_to_private_key (['f', 'i', 'l', 'e', ':'] ++ rest) =
      .ok (.pemKeyFile rest)) ∧
    ((':' : Char) ∉ scheme → scheme ≠ ['d', 'a', 't', 'a'] →
      scheme ≠ ['f', 'i', 'l', 'e'] → scheme ≠ ['p', 'k', 'c', 's', '1', '1'] →
      read_uri_to_private_key (scheme ++ ':' :: rest) =
        .error (.Parse "Config URI must begin with file: , data:, or pkcs11:.")) ∧
    ((':' : Char) ∉ uri →
      read_uri_to_private_key uri =
        .error (.Parse "Config URI must begin with file: , data:, or pkcs11:.")) := by
  have hd : splitOnce ('d' :: 'a' :: 't' :: 'a' :: ':' :: rest) ':' =
      some (['d', 'a', 't', 'a'], rest) :=
    splitOnce_append ['d', 'a', 't', 'a'] rest ':' (by decide)
  have hf : splitOnce ('f' :: 'i' :: 'l' :: 'e' :: ':' :: rest) ':' =
      some (['f', 'i', 'l', 'e'], rest) :=
    splitOnce_append ['f', 'i', 'l', 'e'] rest ':' (by decide)
  have hp : splitOnce ('p' :: 'k' :: 'c' :: 's' :: '1' :: '1' :: ':' :: rest) ':' =
      some (['p', 'k', 'c', 's', '1', '1'], rest) :=
    splitOnce_append ['p', 'k', 'c', 's', '1', '1'] rest ':' (by decide)
  refine ⟨?_, ?_, ?_, fun hns h1 h2 h3 => ?_, fun hnu => ?_, ?_, ?_, ?_,
    fun hns h1 h2 h3 => ?_, fun hnu => ?_⟩
  · simp [read_uri, hd]
  · simp [read_uri, hf]
  · simp [read_uri, hp]
  · simp [read_uri, splitOnce_append scheme rest ':' hns, h1, h2, h3]
  · simp [read_uri, splitOnce_of_not_mem uri ':' hnu]
  · simp [read_uri_to_private_key, hp]
  · simp [read_uri_to_private_key, hd]
  · simp [read_uri_to_private_key, hf]
  · simp [read_uri_to_private_key, splitOnce_append scheme rest ':' hns,
      h1, h2, h3]
  · simp [read_uri_to_private_key, splitOnce_of_not_mem uri ':' hnu]

/-- C7 witness: the amended behavior at concrete URIs, including an
unknown scheme and a scheme-less string. -/
theorem C7_witness :
    (read_uri (['d', 'a', 't', 'a', ':'] ++ ['x']) = .ok (.inlineData ['x'])) ∧
    (read_uri (['h', 't', 't', 'p'] ++ ':' :: ['x']) =
      .error (.Parse "Config URI must begin with file: , data:, or pkcs11:.")) ∧
    (read_uri ['n', 'o', 'c', 'o', 'l', 'o', 'n'] =
      .error (.Parse "Config URI must begin with file: , data:, or pkcs11:.")) ∧
    (read_uri_to_private_key (['p', 'k', 'c', 's', '1', '1', ':'] ++ ['x']) =
      .ok (.pkcs11Key ['x'])) ∧
    (read_uri_to_private_key (['h', 't', 't', 'p'] ++ ':' :: ['x']) =
      .error (.Parse "Config URI must begin with file: , data:, or pkcs11:.")) ∧
    (read_uri_to_private_key ['n', 'o', 'c', 'o', 'l', 'o', 'n'] =
      .error (.Parse "Config URI must begin with file: , data:, or pkcs11:.")) :=
  ⟨(C7_uri_schemes ['x'] [] []).1,
   (C7_uri_schemes ['x'] ['h', 't', 't', 'p'] []).2.2.2.1
     (by decide) (by decide) (by decide) (by decide),
   (C7_uri_schemes [] [] ['n', 'o', 'c', 'o', 'l', 'o', 'n']).2.2.2.2.1
     (by decide),
   (C7_uri_schemes ['x'] [] []).2.2.2.2.2.1,
   (C7_uri_schemes ['x'] ['h', 't', 't', 'p'] []).2.2.2.2.2.2.2.2.1
     (by decide) (by decide) (by decide) (by decide),
   (C7_uri_schemes [] [] ['n', 'o', 'c', 'o', 'l', 'o', 'n']).2.2.2.2.2.2.2.2.2
     (by decide)⟩

/-- C5: with a live receiver, `try_send` on a full channel drops the item
being sent (the queue is unchanged), still signals and wakes (and clears)
the stored consumer waker, and returns Ok; when the channel is not full
the item is appended to the queue and the consumer is likewise signalled
and woken. -/
theorem C5_try_send_drops_newest {T : Type} (s : ChannelState T) (t : T)
    (halive : s.receiver_alive = true) :
    (s.capacity ≤ s.queue.length →
      try_send s t =
        ({ s with signals := s.signals + 1, waker := none }, s.waker, true)) ∧
    (s.queue.length < s.capacity →
      try_send s t =
        ({ s with queue := s.queue ++ [t], signals := s.signals + 1,
                  waker := none }, s.waker, true)) := by
  constructor
  · intro hfull
    simp [try_send, mio_try_send, halive, hfull]
  · intro hroom
    simp [try_send, mio_try_send, halive, Nat.not_le.mpr hroom]

/-- C5 witness: a full channel (capacity 1, one queued item) drops the new
item and reports Ok; a channel with room delivers it. -/
theorem C5_witness :
    (try_send (⟨[10], 1, true, true, some 5, 0⟩ : ChannelState Nat) 11 =
      (⟨[10], 1, true, true, none, 1⟩, some 5, true)) ∧
    (try_send (⟨[], 1, true, true, some 5, 0⟩ : ChannelState Nat) 11 =
      (⟨[11], 1, true, true, none, 1⟩, some 5, true)) :=
  ⟨(C5_try_send_drops_newest ⟨[10], 1, true, true, some 5, 0⟩ 11 rfl).1
     (by decide),
   (C5_try_send_drops_newest ⟨[], 1, true, true, some 5, 0⟩ 11 rfl).2
     (by decide)⟩

/-- C6: `poll_next` returns Ready(Some item) when an item is queued,
returns Pending after installing the caller waker when the channel is
empty and the sender is alive, and returns Ready(None) setting the
terminated flag exactly when the channel is empty and the sender side has
been dropped; in particular Ready(None) implies the sender was dropped. -/
theorem C6_poll_next_end_of_stream {T : Type} (s : ChannelState T)
    (terminated : Bool) (cw : Nat) :
    (∀ t rest, s.queue = t :: rest →
      poll_next s terminated cw =
        ({ s with queue := rest, signals := 0 }, terminated, .readySome t)) ∧
    (s.queue = [] → s.sender_alive = true →
      poll_next s terminated cw =
        ({ s with signals := 0, waker := some cw }, terminated, .pending)) ∧
    (s.queue = [] → s.sender_alive = false →
      poll_next s terminated cw =
        ({ s with signals := 0 }, true, .readyNone)) ∧
    (∀ s' b, poll_next s terminated cw = (s', b, .readyNone) →
      s.sender_alive = false ∧ s.queue = [] ∧ b = true) := by
  refine ⟨fun t rest hq => ?_, fun hq hal => ?_, fun hq hal => ?_,
    fun s' b hp => ?_⟩
  · simp [poll_next, try_recv, hq]
  · simp [poll_next, try_recv, hq, hal]
  · simp [poll_next, try_recv, hq, hal]
  · cases hq : s.queue with
    | cons t rest => simp [poll_next, try_recv, hq] at hp
    | nil =>
      cases hal : s.sender_alive with
      | true => simp [poll_next, try_recv, hq, hal] at hp
      | false =>
        simp [poll_next, try_recv, hq, hal] at hp
        exact ⟨rfl, rfl, hp.2⟩

/-- C6 witness: the three outcomes at concrete channel states, and the
end-of-stream implication at a dropped-sender state. -/
theorem C6_witness :
    (poll_next (⟨[10], 4, true, true, none, 2⟩ : ChannelState Nat) false 9 =
      (⟨[], 4, true, true, none, 0⟩, false, .readySome 10)) ∧
    (poll_next (⟨[], 4, true, true, none, 2⟩ : ChannelState Nat) false 9 =
      (⟨[], 4, true, true, some 9, 0⟩, false, .pending)) ∧
    (poll_next (⟨[], 4, false, true, none, 2⟩ : ChannelState Nat) false 9 =
      (⟨[], 4, false, true, none, 0⟩, true, .readyNone)) ∧
    ((⟨[], 4, false, true, none, 2⟩ : ChannelState Nat).sender_alive = false ∧
      (⟨[], 4, false, true, none, 2⟩ : ChannelState Nat).queue = [] ∧
      true = true) :=
  ⟨(C6_poll_next_end_of_stream ⟨[10], 4, true, true, none, 2⟩ false 9).1
     10 [] rfl,
   (C6_poll_next_end_of_stream ⟨[], 4, true, true, none, 2⟩ false 9).2.1
     rfl rfl,
   (C6_poll_next_end_of_stream ⟨[], 4, false, true, none, 2⟩ false 9).2.2.1
     rfl rfl,
   (C6_poll_next_end_of_stream ⟨[], 4, false, true, none, 2⟩ false 9).2.2.2
     ⟨[], 4, false, true, none, 0⟩ true (by decide)⟩

/-- C10: the no_key `try_take_one_with` yields Ok(None) both when no
sample is available and when the next sample is a dispose (which is
silently swallowed); errors from the keyed reader are propagated
unchanged, and value samples are surfaced. -/
theorem C10_dispose_swallowed {D K : Type}
    (u : Except ReadError (Option (KeyedDeserializedCacheChange D K))) :
    (u = .ok none → try_take_one_with u = .ok none) ∧
    (∀ k, u = .ok (some ⟨.dispose k⟩) → try_take_one_with u = .ok none) ∧
    (∀ e, u = .error e → try_take_one_with u = .error e) ∧
    (∀ d, u = .ok (some ⟨.value d⟩) →
      try_take_one_with u = .ok (some ⟨d⟩)) := by
  refine ⟨fun h => ?_, fun k h => ?_, fun e h => ?_, fun d h => ?_⟩ <;>
    subst h <;> rfl

/-- C10 witness: concrete dispose, empty, error and value cases. -/
theorem C10_witness :
    (try_take_one_with
      (.ok none : Except ReadError (Option (KeyedDeserializedCacheChange Nat Nat))) =
      .ok none) ∧
    (try_take_one_with
      (.ok (some ⟨.dispose 3⟩) :
        Except ReadError (Option (KeyedDeserializedCacheChange Nat Nat))) =
      .ok none) ∧
    (try_take_one_with
      (.error ⟨7⟩ :
        Except ReadError (Option (KeyedDeserializedCacheChange Nat Nat))) =
      .error ⟨7⟩) ∧
    (try_take_one_with
      (.ok (some ⟨.value 42⟩) :
        Except ReadError (Option (KeyedDeserializedCacheChange Nat Nat))) =
      .ok (some ⟨42⟩)) :=
  ⟨(C10_dispose_swallowed (.ok none)).1 rfl,
   (C10_dispose_swallowed (.ok (some ⟨.dispose 3⟩))).2.1 3 rfl,
   (C10_dispose_swallowed (.error ⟨7⟩)).2.2.1 ⟨7⟩ rfl,
   (C10_dispose_swallowed (.ok (some ⟨.value 42⟩))).2.2.2 42 rfl⟩

/-! ### Gap codec round-trip lemmas -/

theorem decU32_encU32 (e : Endian) (n : Nat) (rest : List Nat)
    (h : n < 2^32) :
    decU32 e (encU32 e n ++ rest) = some (n, rest) := by
  cases e <;> simp [decU32, encU32] <;> omega

theorem decEntityId_enc (eid : EntityId) (rest : List Nat)
    (h : eid.entity_key.length = 3) :
    decEntityId (encEntityId eid ++ rest) = some (eid, rest) := by
  obtain ⟨key, kind⟩ := eid
  rcases key with _ | ⟨a, key⟩
  · simp at h
  rcases key with _ | ⟨b, key⟩
  · simp at h
  rcases key with _ | ⟨c, key⟩
  · simp at h
  rcases key with _ | ⟨d, key⟩
  · simp [decEntityId, encEntityId]
  · simp at h

theorem decSN_encSN (e : Endian) (sn : Nat) (rest : List Nat)
    (h : sn < 2^64) :
    decSN e (encSN e sn ++ rest) = some (sn, rest) := by
  have h1 : sn / 2^32 < 2^32 := by omega
  have h2 : sn % 2^32 < 2^32 := Nat.mod_lt _ (by norm_num)
  have e1 := decU32_encU32 e (sn / 2^32) (encU32 e (sn % 2^32) ++ rest) h1
  have e2 := decU32_encU32 e (sn % 2^32) rest h2
  simp only [encSN, decSN, List.append_assoc, e1, e2]
  congr 1
  simp [Prod.ext_iff]
  omega

theorem decWords_enc (e : Endian) (ws : List Nat) (rest : List Nat)
    (h : ∀ w ∈ ws, w < 2^32) :
    decWords e ws.length (encWords e ws ++ rest) = some (ws, rest) := by
  induction ws with
  | nil => simp [decWords, encWords]
  | cons w ws ih =>
    have hw := decU32_encU32 e w (encWords e ws ++ rest) (h w (by simp))
    have hrec := ih (fun x hx => h x (by simp [hx]))
    simp [decWords, encWords, List.append_assoc, hw, hrec]

theorem decSNSet_enc (e : Endian) (st : SequenceNumberSet) (rest : List Nat)
    (h : st.wf) :
    decSNSet e (encSNSet e st ++ rest) = some (st, rest) := by
  obtain ⟨hbase, hbits, hlen, hwords⟩ := h
  have e1 := decSN_encSN e st.base
    (encU32 e st.numBits ++ (encWords e st.words ++ rest)) hbase
  have e2 := decU32_encU32 e st.numBits (encWords e st.words ++ rest)
    (by omega)
  have e3 := decWords_enc e st.words rest hwords
  rw [hlen] at e3
  simp only [encSNSet, decSNSet, List.append_assoc, e1, e2, if_pos hbits, e3]

/-- C8: the Gap submessage codec round-trips in both endiannesses:
decoding the encoding of a well-formed Gap value yields the value again,
and re-encoding the decoded value reproduces the original byte
sequence. -/
theorem C8_gap_roundtrip (e : Endian) (g : Gap) (hwf : g.wf) :
    decGap e (encGap e g) = some g ∧
      (decGap e (encGap e g)).map (encGap e) = some (encGap e g) := by
  obtain ⟨hrid, hwid, hgs, hgl⟩ := hwf
  have h1 := decEntityId_enc g.reader_id
    (encEntityId g.writer_id ++ (encSN e g.gap_start ++ encSNSet e g.gap_list))
    hrid.1
  have h2 := decEntityId_enc g.writer_id
    (encSN e g.gap_start ++ encSNSet e g.gap_list) hwid.1
  have h3 := decSN_encSN e g.gap_start (encSNSet e g.gap_list) hgs
  have h4 := decSNSet_enc e g.gap_list [] hgl
  rw [List.append_nil] at h4
  have hdec : decGap e (encGap e g) = some g := by
    simp [decGap, encGap, List.append_assoc, h1, h2, h3, h4]
  exact ⟨hdec, by rw [hdec]; rfl⟩

/-- C8 witness: the little-endian test vector from gap.rs (SEDP
publications reader/writer, gap_start 42, empty gap list based at 7)
round-trips. -/
theorem C8_witness :
    (Gap.wf ⟨⟨[0, 0, 3], 0xC7⟩, ⟨[0, 0, 3], 0xC2⟩, 42, ⟨7, 0, []⟩⟩) ∧
    (decGap .little
        (encGap .little ⟨⟨[0, 0, 3], 0xC7⟩, ⟨[0, 0, 3], 0xC2⟩, 42, ⟨7, 0, []⟩⟩) =
      some ⟨⟨[0, 0, 3], 0xC7⟩, ⟨[0, 0, 3], 0xC2⟩, 42, ⟨7, 0, []⟩⟩ ∧
    (decGap .little
        (encGap .little ⟨⟨[0, 0, 3], 0xC7⟩, ⟨[0, 0, 3], 0xC2⟩, 42, ⟨7, 0, []⟩⟩)).map
        (encGap .little) =
      some (encGap .little ⟨⟨[0, 0, 3], 0xC7⟩, ⟨[0, 0, 3], 0xC2⟩, 42, ⟨7, 0, []⟩⟩)) :=
  ⟨by unfold Gap.wf EntityId.wf SequenceNumberSet.wf; decide,
   C8_gap_roundtrip .little
     ⟨⟨[0, 0, 3], 0xC7⟩, ⟨[0, 0, 3], 0xC2⟩, 42, ⟨7, 0, []⟩⟩
     (by unfold Gap.wf EntityId.wf SequenceNumberSet.wf; decide)⟩

/-- The little-endian serialization test vector from gap.rs lines 92-98,
reproduced by the embedded encoder. -/
theorem gap_test_vector_le :
    encGap .little ⟨⟨[0, 0, 3], 0xC7⟩, ⟨[0, 0, 3], 0xC2⟩, 42, ⟨7, 0, []⟩⟩ =
      [0x00, 0x00, 0x03, 0xC7,
       0x00, 0x00, 0x03, 0xC2,
       0x00, 0x00, 0x00, 0x00,
       0x2A, 0x00, 0x00, 0x00,
       0x00, 0x00, 0x00, 0x00,
       0x07, 0x00, 0x00, 0x00,
       0x00, 0x00, 0x00, 0x00] := by
  decide

/-- The big-endian serialization test vector from gap.rs lines 99-105,
reproduced by the embedded encoder. -/
theorem gap_test_vector_be :
    encGap .big ⟨⟨[0, 0, 3], 0xC7⟩, ⟨[0, 0, 3], 0xC2⟩, 42, ⟨7, 0, []⟩⟩ =
      [0x00, 0x00, 0x03, 0xC7,
       0x00, 0x00, 0x03, 0xC2,
       0x00, 0x00, 0x00, 0x00,
       0x00, 0x00, 0x00, 0x2A,
       0x00, 0x00, 0x00, 0x00,
       0x00, 0x00, 0x00, 0x07,
       0x00, 0x00, 0x00, 0x00] := by
  decide

end RustDDS
